import Mathlib

/-!
Verification development for the Operational Transform module
`src/algorithms/op_transform.py` of the Pyarrow-Algorithms repository.

The Python module stores text-edit actions as Arrow struct records with
fields `type`, `pos`, `text`, `length`; this file is a shallow embedding of
that module.  Python runtime failures (NameError / TypeError /
AttributeError) are made explicit with `PyErr`, Python dynamic attributes
that the source never assigns are modeled as `Option` fields left `none`,
and Python string slicing (including negative indices) is embedded by
`pySlice` / `pySliceFrom`.
-/

/-- Runtime errors the embedded Python code can raise.  `nonTermination` is
an artifact of the fuel-based embedding of the `while` loop in
`TextOperation.transform`; it never corresponds to a Python behavior. -/
inductive PyErr where
  | nameError (name : String)
  | noneNotSubscriptable
  | structOfNone
  | attributeError (attr : String)
  | nonTermination
  deriving DecidableEq, Repr

/-- One Arrow struct record of the `ops` array: fields `type`, `pos`,
`text`, `length` exactly as declared in `TextOperation.__init__`.  The
builders always leave `pos` as `None`. -/
structure ArrowOp where
  type : String
  pos : Option Int
  text : Option String
  length : Int
  deriving DecidableEq, Repr

/-- A `TextOperation` object.  Its constructor initializes only the `ops`
array.  Python objects carry an attribute only once it is assigned; the
class never assigns `metadata`, so it is modeled as an `Option` that every
constructor and builder leaves `none` (reading it when `none` is an
`AttributeError`). -/
structure TextOperation where
  ops : List ArrowOp
  metadata : Option Int
  deriving DecidableEq, Repr

/-- `TextOperation()`: empty ops array, no `metadata` attribute. -/
def TextOperation.new : TextOperation := ⟨[], none⟩

/-- `retain(n)`: appends `{'type': 'retain', 'pos': None, 'text': None,
'length': n}` unconditionally (the source has no zero-length guard). -/
def TextOperation.retain (t : TextOperation) (n : Int) : TextOperation :=
  { t with ops := t.ops ++ [⟨"retain", none, none, n⟩] }

/-- `insert(text)`: appends `{'type': 'insert', 'pos': None, 'text': text,
'length': len(text)}` unconditionally. -/
def TextOperation.insert (t : TextOperation) (text : String) : TextOperation :=
  { t with ops := t.ops ++ [⟨"insert", none, some text, (text.length : Int)⟩] }

/-- `delete(text)`: appends `{'type': 'delete', 'pos': None, 'text': text,
'length': -len(text)}` unconditionally — note the stored length is the
NEGATION of the removed text's length. -/
def TextOperation.delete (t : TextOperation) (text : String) : TextOperation :=
  { t with ops := t.ops ++ [⟨"delete", none, some text, -(text.length : Int)⟩] }

/-- `from_array(arr)`: replaces the ops array, returns the same object. -/
def TextOperation.from_array (t : TextOperation) (arr : List ArrowOp) : TextOperation :=
  { t with ops := arr }

/-- Operations constructible through the class's own code paths: the bare
constructor, the three builders, and `from_array`.  (`transform` builds its
result as `TextOperation().from_array(...)`.)  Every such object lacks the
`metadata` attribute. -/
inductive BuiltOperation : TextOperation → Prop where
  | new : BuiltOperation TextOperation.new
  | retain (t : TextOperation) (n : Int) :
      BuiltOperation t → BuiltOperation (t.retain n)
  | insert (t : TextOperation) (x : String) :
      BuiltOperation t → BuiltOperation (t.insert x)
  | delete (t : TextOperation) (x : String) :
      BuiltOperation t → BuiltOperation (t.delete x)
  | from_array (t : TextOperation) (arr : List ArrowOp) :
      BuiltOperation t → BuiltOperation (t.from_array arr)

theorem BuiltOperation.metadata_none {t : TextOperation}
    (h : BuiltOperation t) : t.metadata = none := by
  induction h with
  | new => rfl
  | retain t n _ ih => exact ih
  | insert t x _ ih => exact ih
  | delete t x _ ih => exact ih
  | from_array t arr _ ih => exact ih

/-- Effective start index of a Python slice bound `i` on a string of length
`n`: negative indices count from the end and everything is clamped to
`[0, n]`. -/
def pyBound (n : Nat) (i : Int) : Nat :=
  if i < 0 then (max 0 ((n : Int) + i)).toNat else min i.toNat n

/-- Python `s[a:b]`. -/
def pySlice (s : String) (a b : Int) : String :=
  ⟨((s.data).take (pyBound s.length b)).drop (pyBound s.length a)⟩

/-- Python `s[a:]`. -/
def pySliceFrom (s : String) (a : Int) : String :=
  ⟨(s.data).drop (pyBound s.length a)⟩

/-- The insertion primitive `pc.utf8_insert(result, pos, content)` used by
`_apply_vectorized` (read charitably as: insert `content` at character
position `pos`, position clamped to the string the way Python indices
are). -/
def utf8_insert (s : String) (pos : Int) (content : String) : String :=
  ⟨((s.data).take (pyBound s.length pos)) ++ content.data ++
    ((s.data).drop (pyBound s.length pos))⟩

/-- Loop body of `OTVersionControl._apply_vectorized`: walks the ops with a
cursor `pos`.  `retain` advances `pos` by the stored length; `insert`
inserts the record's text at `pos` and advances `pos` by the stored length;
`delete` rebuilds the string as `result[0:pos] + result[pos+length:]`
without moving `pos` (the stored delete length is negative).  Any other
type falls through.  The function performs no length validation and raises
no error.  (Insert records produced by the builders always carry a text
payload; `None` text would only arise for retain records, whose branch
ignores it, so the `Option` is read with a default.) -/
def applyVectorizedAux : String → Int → List ArrowOp → String
  | result, _, [] => result
  | result, pos, op :: rest =>
    if op.type = "retain" then
      applyVectorizedAux result (pos + op.length) rest
    else if op.type = "insert" then
      applyVectorizedAux (utf8_insert result pos (op.text.getD "")) (pos + op.length) rest
    else if op.type = "delete" then
      applyVectorizedAux (pySlice result 0 pos ++ pySliceFrom result (pos + op.length)) pos rest
    else
      applyVectorizedAux result pos rest

/-- `OTVersionControl._apply_vectorized(text, ops)`. -/
def applyVectorized (text : String) (ops : List ArrowOp) : String :=
  applyVectorizedAux text 0 ops




/-- Merging step of `_optimize_operations` on two adjacent records of the
same type: lengths are summed and text payloads concatenated. -/
def mergeTwo (a b : ArrowOp) : ArrowOp :=
  ⟨a.type, none,
    match a.text, b.text with
    | some x, some y => some (x ++ y)
    | some x, none => some x
    | none, some y => some y
    | none, none => none,
    a.length + b.length⟩

/-- `TextOperation._optimize_operations` per its docstring: merge adjacent
operations of the same type.  (The body's Arrow calls — `pc.aggregate`,
`pc.run_length_encode` over a field expression — do not exist as written in
`pyarrow.compute`; this is the charitable reading of the documented
intent.) -/
def optimizeOperations : List ArrowOp → List ArrowOp
  | [] => []
  | a :: rest =>
    match optimizeOperations rest with
    | [] => [a]
    | b :: merged =>
      if a.type = b.type then mergeTwo a b :: merged
      else a :: b :: merged

/-- `compose(other)`: concatenates the two ops arrays and runs
`_optimize_operations` on the concatenation (which is what the method
returns — it never interleaves the two action streams the way operation
composition requires). -/
def TextOperation.compose (t other : TextOperation) : List ArrowOp :=
  optimizeOperations (t.ops ++ other.ops)

/-- The helper `next_op(ops, idx)` inside `transform`. -/
def nextOp (ops : List ArrowOp) (idx : Nat) : Option ArrowOp × Nat :=
  match ops[idx]? with
  | some o => (some o, idx + 1)
  | none => (none, idx)

/-- One-to-one embedding of the `while` loop of `TextOperation.transform`,
bugs included, with explicit fuel.  State: the two stream indices, the two
cursor records (`curr_our`, `curr_their`), whether the misspelled variable
`curr_her` has ever been bound (the final `else` branch assigns
`curr_her = None` where `curr_their = None` was evidently meant), and the
accumulated `transformed` list.  Reading a field of a cursor just set to
`None` is a `TypeError`; `pa.struct(curr_her)` is a `NameError` when
`curr_her` is unbound and a `TypeError` (`pa.struct(None)`) when bound. -/
def transformLoop (selfOps otherOps : List ArrowOp) :
    Nat → Nat → Nat → Option ArrowOp → Option ArrowOp → Bool → List ArrowOp →
    Except PyErr (List ArrowOp)
  | 0, _, _, _, _, _, _ => Except.error PyErr.nonTermination
  | fuel + 1, ourIdx, theirIdx, currOur, currTheir, herBound, acc =>
    if ourIdx < selfOps.length || theirIdx < otherOps.length ||
        currOur.isSome || currTheir.isSome then
      let p := match currOur with
        | none => nextOp selfOps ourIdx
        | some c => (some c, ourIdx)
      let q := match currTheir with
        | none => nextOp otherOps theirIdx
        | some c => (some c, theirIdx)
      match p.1, q.1 with
      | none, some _ =>
          -- `transformed.append(pa.struct(curr_her))`
          if herBound then Except.error PyErr.structOfNone
          else Except.error (PyErr.nameError "curr_her")
      | none, none =>
          transformLoop selfOps otherOps fuel p.2 q.2 none none herBound acc
      | some co, none =>
          transformLoop selfOps otherOps fuel p.2 q.2 none none herBound (acc ++ [co])
      | some co, some ct =>
          if co.type = "retain" ∧ ct.type = "retain" then
            -- Case 1: both retains
            let minLen := min co.length ct.length
            let acc := acc ++ [⟨"retain", none, none, minLen⟩]
            let currOur := if co.length > minLen
              then some { co with length := co.length - minLen } else none
            let currTheir := if ct.length > minLen
              then some { ct with length := ct.length - minLen } else none
            transformLoop selfOps otherOps fuel p.2 q.2 currOur currTheir herBound acc
          else if co.type = "insert" ∧ ct.type = "retain" then
            -- Case 2: Insert vs Retain
            let acc := acc ++ [⟨"insert", none, co.text, co.length⟩]
            let currTheir := if ct.length > co.length
              then some { ct with length := ct.length - co.length } else none
            transformLoop selfOps otherOps fuel p.2 q.2 none currTheir herBound acc
          else if co.type = "retain" ∧ ct.type = "insert" then
            -- Case 3: after `curr_their = None` the next line reads
            -- `curr_their['length']`
            Except.error PyErr.noneNotSubscriptable
          else if co.type = "delete" ∧ ct.type = "retain" then
            -- Case 4: after `curr_our = None` the guard reads
            -- `-curr_our['length']`
            Except.error PyErr.noneNotSubscriptable
          else if co.type = "retain" ∧ ct.type = "delete" then
            -- Case 5: after `curr_their = None` the guard reads
            -- `-curr_their['length']`
            Except.error PyErr.noneNotSubscriptable
          else
            -- final else: appends both records, clears `curr_our`, and
            -- binds `curr_her = None` leaving `curr_their` set
            transformLoop selfOps otherOps fuel p.2 q.2 none (some ct) true
              (acc ++ [co, ct])
    else
      Except.ok acc

/-- `transform(other)`: runs the loop and wraps the result via
`TextOperation().from_array(...)`.  Note the method returns a SINGLE
operation, not a pair.  The fuel is generous; every terminating run of the
Python loop finishes within it. -/
def TextOperation.transform (t other : TextOperation) :
    Except PyErr TextOperation :=
  (transformLoop t.ops other.ops (2 * (t.ops.length + other.ops.length) + 4)
      0 0 none none false []).map
    (fun arr => TextOperation.new.from_array arr)





/-- One row of the `history` table (schema `timestamp`, `client_id`,
`version`, `operation`).  The wall-clock timestamp is irrelevant to every
property considered here and is omitted. -/
structure HistoryRow where
  client_id : String
  version : Int
  operation : List ArrowOp
  deriving DecidableEq, Repr

/-- An `OTVersionControl` object.  `__init__` creates only the empty
`history` table; the attributes `current_text` and `version`, which
`apply_operation` and `compress_history` read, are never initialized, so
they are modeled as `Option` fields that the constructor leaves `none`
(reading them when `none` is an `AttributeError`). -/
structure OTVersionControl where
  history : List HistoryRow
  current_text : Option String
  version : Option Int
  deriving DecidableEq, Repr

/-- `OTVersionControl()`. -/
def OTVersionControl.init : OTVersionControl := ⟨[], none, none⟩

/-- The `for sop in server_ops: transformed_op = transformed_op.transform(sop)`
fold of `apply_operation`, propagating any exception raised by
`transform`.  (The source hands `transform` a raw history column element;
the embedding treats it as the stored ops array of that entry.) -/
def foldTransform : TextOperation → List (List ArrowOp) → Except PyErr TextOperation
  | acc, [] => Except.ok acc
  | acc, sop :: rest =>
    match acc.transform (TextOperation.new.from_array sop) with
    | Except.error e => Except.error e
    | Except.ok acc2 => foldTransform acc2 rest

/-- `OTVersionControl.apply_operation(client_id, operation)`, step by step:
read `operation.metadata['base_version']` (an `AttributeError` — the
`TextOperation` class never defines `metadata`) and filter the history;
fold `transform` over the filtered operations; read `self.current_text`
(an `AttributeError` on a fresh object) and assign the applied result to
it; read `self.version` (likewise) while appending the history row; then
increment `self.version`.  The returned pair is (what the call raises or
returns, the object state the caller observes afterwards) — a Python
exception does not roll back attribute assignments already made, so the
state is threaded through every step. -/
def OTVersionControl.apply_operation (s : OTVersionControl) (client_id : String)
    (operation : TextOperation) : Except PyErr Unit × OTVersionControl :=
  match operation.metadata with
  | none => (Except.error (PyErr.attributeError "metadata"), s)
  | some base_version =>
    let server_ops := (s.history.filter (fun r => base_version ≤ r.version)).map
      (fun r => r.operation)
    match foldTransform operation server_ops with
    | Except.error e => (Except.error e, s)
    | Except.ok transformed_op =>
      match s.current_text with
      | none => (Except.error (PyErr.attributeError "current_text"), s)
      | some txt =>
        let s1 : OTVersionControl :=
          { s with current_text := some (applyVectorized txt transformed_op.ops) }
        match s1.version with
        | none => (Except.error (PyErr.attributeError "version"), s1)
        | some v =>
          let s2 : OTVersionControl :=
            { s1 with history := s1.history ++ [⟨client_id, v, transformed_op.ops⟩] }
          (Except.ok (), { s2 with version := some (v + 1) })

/-- `OTVersionControl.compress_history()`: aggregates the whole operation
column into one row (the `pc.aggregate(..., 'list', ...)` call does not
exist in `pyarrow.compute`; it is read charitably, per the docstring, as
collecting the stored operations), then builds the replacement
single-entry table, reading `self.version` — an `AttributeError`, since no
code path ever initializes `version`.  No checkpoint argument exists: the
method unconditionally replaces the entire history. -/
def OTVersionControl.compress_history (s : OTVersionControl) :
    Except PyErr Unit × OTVersionControl :=
  let compressed_ops := (s.history.map (fun r => r.operation)).foldr
    (fun a b => a ++ b) []
  match s.version with
  | none => (Except.error (PyErr.attributeError "version"), s)
  | some v =>
    (Except.ok (), { s with history := [⟨"system", v, compressed_ops⟩] })



/-- C1.  Convergence is claimed for `transform`: for operations with equal
base lengths it should return a pair `(a', b')` with
`apply(a', apply(b, d)) == apply(b', apply(a, d))`.  The code returns a
single operation, and on `a = retain(1)`, `b = delete(1, "x")` (both of
base length 1, matching the document `"x"`) it raises a `TypeError`: the
Retain-versus-Delete branch reads `curr_their['length']` immediately after
setting `curr_their = None`.  This theorem evaluates the code at that
failing input. -/
theorem transform_crashes_on_convergence_input :
    (TextOperation.new.retain 1).transform (TextOperation.new.delete "x")
      = Except.error PyErr.noneNotSubscriptable := rfl

/-- C2.  Compose correctness is claimed: `apply(compose(a, c), d) ==
apply(c, apply(a, d))` whenever `targetLength(a) == baseLength(c)` and
`len(d) == baseLength(a)`.  Take `a = retain(1)`, `c = insert("Y") ∘
retain(1)`, `d = "x"` (target length of `a` is 1 = base length of `c`,
`len(d) = 1` = base length of `a`).  The code's `compose` merely
concatenates the two action streams, so applying its result moves the
insertion after the retained character: it yields `"xY"` while the
sequential application yields `"Yx"`. -/
theorem compose_concatenation_breaks_composition :
    applyVectorized "x"
        ((TextOperation.new.retain 1).compose
          ((TextOperation.new.insert "Y").retain 1))
      = "xY" ∧
    applyVectorized (applyVectorized "x" (TextOperation.new.retain 1).ops)
        ((TextOperation.new.insert "Y").retain 1).ops
      = "Yx" ∧
    ("xY" : String) ≠ "Yx" := by decide

/-- C3.  The claim says `apply` fails with `LengthMismatch` whenever
`len(doc) != baseLength`, and in particular that applying `delete(1, "x")`
to `""` fails.  The code's `_apply_vectorized` contains no length
validation and no error path at all (its embedding is a total function
into `String`): at the claimed failing input it silently returns `""`. -/
theorem apply_has_no_length_validation :
    applyVectorized "" (TextOperation.new.delete "x").ops = "" := by decide

/-- C4.  Atomicity of `apply_operation`: whenever a call fails with any
error, the history and the document snapshot observed by the caller are
exactly the pre-call state.  This holds for every operation the
`TextOperation` class can actually construct, because every such call
raises while reading `operation.metadata`, before the first mutation. -/
theorem apply_operation_atomic_on_failure :
    ∀ (s : OTVersionControl) (cid : String) (op : TextOperation) (e : PyErr),
      BuiltOperation op →
      (s.apply_operation cid op).1 = Except.error e →
      (s.apply_operation cid op).2 = s := by
  intro s cid op e hb _
  simp [OTVersionControl.apply_operation, hb.metadata_none]

theorem apply_operation_atomic_on_failure_witness :
    (OTVersionControl.init.apply_operation "alice"
        (TextOperation.new.retain 1)).2 = OTVersionControl.init :=
  apply_operation_atomic_on_failure OTVersionControl.init "alice"
    (TextOperation.new.retain 1) (PyErr.attributeError "metadata")
    (BuiltOperation.retain TextOperation.new 1 BuiltOperation.new) rfl

/-- C5.  The claim says replaying the log after `compress_history` yields
the same document as replaying the original log, with the synthetic entry
tagged `clientId = "system"`.  The code's `compress_history` takes no
checkpoint and never completes: it reads `self.version`, an attribute no
code path initializes, and raises `AttributeError` leaving the history
untouched — no compacted log (and no `"system"` entry) is ever produced.
This theorem evaluates the call on a freshly constructed controller. -/
theorem compress_history_raises_attribute_error :
    OTVersionControl.init.compress_history
      = (Except.error (PyErr.attributeError "version"), OTVersionControl.init) := rfl

/-- C6.  Applying `retain(5).insert(" world")` to `"hello"` returns
`"hello world"`. -/
theorem retain_insert_apply_hello_world :
    applyVectorized "hello" ((TextOperation.new.retain 5).insert " world").ops
      = "hello world" := by decide

/-- C7 counterexample.  The claim says `retain(0)`, `insert("")` and
`delete("")` append no action; in fact each call appends exactly one
record to the previously empty ops array. -/
theorem zero_length_calls_do_append :
    (TextOperation.new.retain 0).ops.length = 1 ∧
    (TextOperation.new.insert "").ops.length = 1 ∧
    (TextOperation.new.delete "").ops.length = 1 := by decide

/-- C7 amended.  Zero-length builder calls are not no-ops: each appends
exactly one zero-length record (`retain` with length 0, `insert`/`delete`
with empty text and length 0); they raise no error and return the builder
for chaining. -/
theorem zero_length_calls_append_one_record :
    ∀ (t : TextOperation),
      (t.retain 0).ops = t.ops ++ [⟨"retain", none, none, 0⟩] ∧
      (t.insert "").ops = t.ops ++ [⟨"insert", none, some "", 0⟩] ∧
      (t.delete "").ops = t.ops ++ [⟨"delete", none, some "", 0⟩] := by
  intro t
  exact ⟨rfl, rfl, rfl⟩

/-- C8.  The claim (and the spec's data model) say a Delete action stores a
non-negative length equal to the removed text's length.  The builder
stores the NEGATION: `delete("x")` stores length `-1`.  Moreover the
negative stored length breaks the code's own delete handling in
`_apply_vectorized` (which computes `result[0:pos] + result[pos+length:]`,
a formula that deletes only for a positive length): the spec's own
scenario `delete(5, "hello")` applied to `"hello"` returns `"hello"`
instead of `""`. -/
theorem delete_stores_negated_length :
    (TextOperation.new.delete "x").ops
      = [⟨"delete", none, some "x", -1⟩] ∧
    applyVectorized "hello" (TextOperation.new.delete "hello").ops
      = "hello" := by decide

/-- C9.  The source's `transform` has incorrect branches that raise
runtime errors instead of returning a result: when the self stream is
exhausted while the other still has an action, the code references
`curr_her`, a variable that was never defined (`NameError`); the
Retain-versus-Insert branch reads `curr_their['length']` right after
setting `curr_their = None`, and the Delete-versus-Retain branch reads
`curr_our['length']` right after setting `curr_our = None` (both
`TypeError`s).  One concrete pair per defect. -/
theorem transform_defective_branches :
    TextOperation.new.transform (TextOperation.new.retain 1)
      = Except.error (PyErr.nameError "curr_her") ∧
    (TextOperation.new.retain 1).transform (TextOperation.new.insert "B")
      = Except.error PyErr.noneNotSubscriptable ∧
    (TextOperation.new.delete "y").transform (TextOperation.new.retain 2)
      = Except.error PyErr.noneNotSubscriptable :=
  ⟨rfl, rfl, rfl⟩

/-- C10.  Every invocation of `apply_operation` on an operation the
`TextOperation` class can construct raises `AttributeError` on its very
first step — reading `operation.metadata`, an attribute the class never
defines — and returns with the controller state (history included)
unchanged; no invocation can succeed.  (`self.current_text` and
`self.version` are likewise never initialized, so later steps could not
complete either.) -/
theorem apply_operation_never_succeeds :
    ∀ (s : OTVersionControl) (cid : String) (op : TextOperation),
      BuiltOperation op →
      s.apply_operation cid op
        = (Except.error (PyErr.attributeError "metadata"), s) := by
  intro s cid op hb
  simp [OTVersionControl.apply_operation, hb.metadata_none]

theorem apply_operation_never_succeeds_witness :
    OTVersionControl.init.apply_operation "bob" (TextOperation.new.insert "A")
      = (Except.error (PyErr.attributeError "metadata"), OTVersionControl.init) :=
  apply_operation_never_succeeds OTVersionControl.init "bob"
    (TextOperation.new.insert "A")
    (BuiltOperation.insert TextOperation.new "A" BuiltOperation.new)
